import Mathlib

/-!
Shallow embedding of the time-tracking state machine of the
online-dretec widget (src/components/timer.tsx).

The component keeps a single mutable record (`TimerState` in the source)
and mutates it through `setState` callbacks attached to buttons and to
recurring intervals.  Each callback body is a pure function from the
previous state to the next state; those bodies are transcribed here as
Lean functions.  Times are non-negative integers throughout the source
(seconds, or centiseconds in the stopwatch MS format), so `Nat` is the
faithful carrier.  Wall-clock `Date` values only flow into the log
entries opaquely; they are modelled as `Nat` timestamps.
-/

/-- Source `type TimerMode = 'timer' | 'stopwatch'`. -/
inductive TimerMode where
  | timer
  | stopwatch
deriving DecidableEq

/-- Source `type DisplayFormat = 'hms' | 'ms'`. -/
inductive DisplayFormat where
  | hms
  | ms
deriving DecidableEq

/-- Source `interface TimerState` (timer.tsx lines 59-68).  `time` is the
displayed count (remaining seconds in timer mode, elapsed seconds or
centiseconds in stopwatch mode), `timerSet` the configured countdown
target in seconds. -/
structure TimerState where
  mode : TimerMode
  displayFormat : DisplayFormat
  running : Bool
  paused : Bool
  time : Nat
  timerSet : Nat
  flash : Bool
  startTime : Option Nat
deriving DecidableEq

/-- Source `interface LogEntry` (id is an opaque `Date.now()` token and
is kept outside the model; `duration` is the raw stored `time`). -/
structure LogEntry where
  startTime : Nat
  duration : Nat
  formattedDuration : String
deriving DecidableEq

/-- Source `TIMER_CONSTANTS.TIME_LIMITS.TIMER_MAX = 99*3600 + 59*60 + 59`. -/
def TIMER_MAX : Nat := 99 * 3600 + 59 * 60 + 59

/-- Source `TIMER_CONSTANTS.TIME_LIMITS.STOPWATCH_HMS_MAX = 99*3600 + 59*60 + 59`. -/
def STOPWATCH_HMS_MAX : Nat := 99 * 3600 + 59 * 60 + 59

/-- Source `TIMER_CONSTANTS.TIME_LIMITS.STOPWATCH_MS_MAX = 59*60*100 + 99`. -/
def STOPWATCH_MS_MAX : Nat := 59 * 60 * 100 + 99

/-- Source `getMaxTime` (timer.tsx lines 134-138). -/
def getMaxTime (s : TimerState) : Nat :=
  if s.mode = TimerMode.timer then TIMER_MAX
  else if s.displayFormat = DisplayFormat.hms then STOPWATCH_HMS_MAX
  else STOPWATCH_MS_MAX

/-- Source `.toString().padStart(2, '0')` on a non-negative integer. -/
def pad2 (n : Nat) : String :=
  let r := toString n
  if r.length < 2 then String.mk (List.replicate (2 - r.length) (Char.ofNat 48)) ++ r else r

/-- Source `formatTime` (timer.tsx lines 141-166): `HH:MM:SS` in timer
mode and stopwatch HMS, `MM:SS.CS` in stopwatch MS (input then counted
in centiseconds). -/
def formatTime (s : TimerState) (t : Nat) : String :=
  if s.mode = TimerMode.timer then
    pad2 (t / 3600) ++ ":" ++ pad2 (t % 3600 / 60) ++ ":" ++ pad2 (t % 60)
  else if s.displayFormat = DisplayFormat.hms then
    pad2 (t / 3600) ++ ":" ++ pad2 (t % 3600 / 60) ++ ":" ++ pad2 (t % 60)
  else
    pad2 (t / 100 / 60) ++ ":" ++ pad2 (t / 100 % 60) ++ "." ++ pad2 (t % 100)

/-- Source `handleFormatToggle` (timer.tsx lines 193-221): in stopwatch
mode the stored time is converted (seconds to centiseconds by `* 100`,
centiseconds to seconds by `Math.floor(_ / 100)`); in timer mode only
the flag flips.  There is no `running`/`paused` precondition. -/
def handleFormatToggle (s : TimerState) : TimerState :=
  if s.mode = TimerMode.stopwatch then
    if s.displayFormat = DisplayFormat.hms then
      { s with displayFormat := DisplayFormat.ms, time := s.time * 100 }
    else
      { s with displayFormat := DisplayFormat.hms, time := s.time / 100 }
  else
    { s with displayFormat :=
        if s.displayFormat = DisplayFormat.hms then DisplayFormat.ms else DisplayFormat.hms }

/-- Source `handleStartStop` (timer.tsx lines 224-243): paused resumes,
running pauses, stopped starts (recording `startTime` only in stopwatch
mode).  No guard on `timerSet`. -/
def handleStartStop (now : Nat) (s : TimerState) : TimerState :=
  if s.paused then { s with paused := false, running := true }
  else if s.running then { s with running := false, paused := true }
  else
    { s with
        running := true,
        paused := false,
        startTime := if s.mode = TimerMode.stopwatch then some now else s.startTime }

/-- Source reset-button branch of `handleClick` (timer.tsx lines 712-720):
stops, and restores `time` to `timerSet` in timer mode (0 in stopwatch);
`mode` and `timerSet` are untouched. -/
def handleReset (s : TimerState) : TimerState :=
  { s with
      running := false,
      paused := false,
      time := if s.mode = TimerMode.timer then s.timerSet else 0,
      startTime := none }

/-- Source mode-button branch of `handleClick` (timer.tsx lines 699-708). -/
def handleModeToggle (s : TimerState) : TimerState :=
  { s with
    mode := if s.mode = TimerMode.timer then TimerMode.stopwatch else TimerMode.timer,
    running := false, paused := false, time := 0, startTime := none }

/-- Source H/M/S button branches of `handleClick` (timer.tsx lines
721-754), with `unit` 3600, 60 or 1: guarded by
`!state.running && state.mode === 'timer'`, and the new value is kept
only when it does not exceed `getMaxTime()`. -/
def incrementField (unit : Nat) (s : TimerState) : TimerState :=
  if s.running = false ∧ s.mode = TimerMode.timer then
    if s.timerSet + unit ≤ getMaxTime s then { s with timerSet := s.timerSet + unit } else s
  else s

/-- Source timer-mode interval body (timer.tsx lines 893-907): at
`time <= 1` the countdown expires (stop, flash, zero), otherwise it
decrements. -/
def timerTickBody (s : TimerState) : TimerState :=
  if s.time ≤ 1 then { s with running := false, paused := false, flash := true, time := 0 }
  else { s with time := s.time - 1 }

/-- Source stopwatch interval body (timer.tsx lines 915-923): increments
`time` unless it has reached `getMaxTime()`. -/
def stopwatchTickBody (s : TimerState) : TimerState :=
  if getMaxTime s ≤ s.time then s else { s with time := s.time + 1 }

/-- One tick of the recurring interval effect (timer.tsx lines 887-931):
the interval exists only while `running && !paused`, and dispatches on
the mode. -/
def tick (s : TimerState) : TimerState :=
  if s.running = true ∧ s.paused = false then
    if s.mode = TimerMode.timer then timerTickBody s else stopwatchTickBody s
  else s

/-- Iterated ticks. -/
def tickN : Nat → TimerState → TimerState
  | 0, s => s
  | n + 1, s => tickN n (tick s)

/-- Source flash-window timeout body (timer.tsx lines 958-963): after the
fixed 2000 ms window only `flash` is cleared; the 300 ms blink interval
(lines 950-955) likewise only flips `flash`.  Nothing else changes. -/
def flashClear (s : TimerState) : TimerState := { s with flash := false }

/-- Source `handleLog` (timer.tsx lines 268-288): guarded by
`state.mode === 'stopwatch' && state.startTime && state.time > 0`; on
success it prepends an entry carrying the raw `time` and the current
format rendering, then zeroes the session (mode preserved). -/
def handleLog (s : TimerState) (entries : List LogEntry) : TimerState × List LogEntry :=
  match s.startTime with
  | some st =>
    if s.mode = TimerMode.stopwatch ∧ 0 < s.time then
      ({ s with running := false, paused := false, time := 0, startTime := none },
       { startTime := st, duration := s.time, formattedDuration := formatTime s s.time }
         :: entries)
    else (s, entries)
  | none => (s, entries)

/-- Modelled from the spec (not from the source): the spec's
`durationSeconds` field, "current elapsed converted to seconds
regardless of display format".  In stopwatch MS format the stored time
counts centiseconds, so conversion means division by 100. -/
def specElapsedSeconds (s : TimerState) : Nat :=
  if s.mode = TimerMode.stopwatch ∧ s.displayFormat = DisplayFormat.ms then s.time / 100
  else s.time

/-- Source initial state (timer.tsx lines 120-129). -/
def initialState : TimerState :=
  { mode := TimerMode.stopwatch, displayFormat := DisplayFormat.hms,
    running := false, paused := false, time := 0, timerSet := 0,
    flash := false, startTime := none }

/-! Helper lemmas shared by several developments below. -/

/-- A tick never changes the mode, the display format or the configured
countdown target. -/
theorem tick_preserves_config (s : TimerState) :
    (tick s).mode = s.mode ∧ (tick s).displayFormat = s.displayFormat ∧
      (tick s).timerSet = s.timerSet := by
  unfold tick timerTickBody stopwatchTickBody
  split_ifs <;> simp

/-- Ticks leave `getMaxTime` unchanged. -/
theorem getMaxTime_tick (s : TimerState) : getMaxTime (tick s) = getMaxTime s := by
  unfold getMaxTime
  rw [(tick_preserves_config s).1, (tick_preserves_config s).2.1]

/-- In stopwatch mode a tick never decreases `time`. -/
theorem tick_sw_mono (s : TimerState) (h : s.mode = TimerMode.stopwatch) :
    s.time ≤ (tick s).time := by
  unfold tick stopwatchTickBody
  split_ifs <;> simp_all

/-- In stopwatch mode a tick keeps `time` within `getMaxTime`. -/
theorem tick_sw_le_max (s : TimerState) (h : s.mode = TimerMode.stopwatch)
    (hle : s.time ≤ getMaxTime s) : (tick s).time ≤ getMaxTime s := by
  unfold tick stopwatchTickBody
  split_ifs <;> simp_all
  omega

/-- In timer mode a tick never increases `time` (the countdown). -/
theorem tick_tm_anti (s : TimerState) (h : s.mode = TimerMode.timer) :
    (tick s).time ≤ s.time := by
  unfold tick timerTickBody
  split_ifs <;> simp_all

/-- C2: what `reset()` actually does — it stops (running and paused
cleared, `startTime` dropped) and restores `time` to `timerSet` in timer
mode (to 0 in stopwatch mode), but it keeps the current mode and the
configured `timerSet`; there is no Clock mode to return to. -/
theorem c2_reset_characterization (s : TimerState) :
    (handleReset s).mode = s.mode ∧ (handleReset s).running = false ∧
    (handleReset s).paused = false ∧ (handleReset s).startTime = none ∧
    (handleReset s).timerSet = s.timerSet ∧
    (handleReset s).time = (if s.mode = TimerMode.timer then s.timerSet else 0) := by
  unfold handleReset
  split_ifs <;> simp

/-- A concrete running timer state with a 60-second target, 33 seconds
remaining. -/
def c2state : TimerState :=
  { mode := TimerMode.timer, displayFormat := DisplayFormat.hms,
    running := true, paused := false, time := 33, timerSet := 60,
    flash := false, startTime := none }

/-- C2 counterexample: resetting `c2state` leaves `time = 60` and
`timerSet = 60` and the mode still Timer, refuting the claimed
`elapsed = 0`, `targetDuration = 0` (and `mode = Clock`) outcome. -/
theorem c2_counterexample :
    (handleReset c2state).time = 60 ∧ (handleReset c2state).timerSet = 60 ∧
      (handleReset c2state).mode = TimerMode.timer := by decide

/-- C3: what `toggleFormat()` actually does to the stored numbers — in
stopwatch mode it converts `time` (seconds to centiseconds by `* 100`,
centiseconds to seconds by floor-division by 100) while flipping the
format; in timer mode only the format flips; `timerSet` and the mode are
never touched. -/
theorem c3_toggle_converts (s : TimerState) :
    (handleFormatToggle s).displayFormat =
      (if s.displayFormat = DisplayFormat.hms then DisplayFormat.ms else DisplayFormat.hms) ∧
    (handleFormatToggle s).time =
      (if s.mode = TimerMode.stopwatch then
        (if s.displayFormat = DisplayFormat.hms then s.time * 100 else s.time / 100)
       else s.time) ∧
    (handleFormatToggle s).timerSet = s.timerSet ∧
    (handleFormatToggle s).mode = s.mode := by
  unfold handleFormatToggle
  split_ifs <;> simp_all

/-- A concrete stopped stopwatch in HMS format with 65 seconds stored. -/
def c3state : TimerState :=
  { mode := TimerMode.stopwatch, displayFormat := DisplayFormat.hms,
    running := false, paused := false, time := 65, timerSet := 0,
    flash := false, startTime := none }

/-- C3 counterexample: toggling the format of `c3state` multiplies the
stored time by 100 (65 becomes 6500), so a numeric conversion IS
performed, refuting "the same integer value is kept". -/
theorem c3_counterexample :
    (handleFormatToggle c3state).time = 6500 ∧ c3state.time = 65 := by decide

/-- C5: `toggleFormat()` carries no running/paused precondition — it
acts identically whatever the `running`/`paused` flags are, and merely
carries those flags through unchanged. -/
theorem c5_toggle_ignores_running (s : TimerState) (r p : Bool) :
    handleFormatToggle { s with running := r, paused := p } =
      { handleFormatToggle s with running := r, paused := p } := by
  rcases s with ⟨m, d, ru, pa, t, ts, f, st⟩
  unfold handleFormatToggle
  split_ifs <;> rfl

/-- A concrete stopwatch that is actively running. -/
def c5state : TimerState :=
  { mode := TimerMode.stopwatch, displayFormat := DisplayFormat.hms,
    running := true, paused := false, time := 5, timerSet := 0,
    flash := false, startTime := some 3 }

/-- C5 counterexample: invoking the format toggle on the running state
`c5state` changes the state (format flips and time is converted),
refuting "invoked in any other state the command is ignored". -/
theorem c5_counterexample :
    c5state.running = true ∧ handleFormatToggle c5state ≠ c5state := by decide

/-- C1: in timer mode, when the countdown reaches 0 during a tick the
engine does enter the expired sub-state (`running = false`,
`flash = true`, `time = 0`), and the flash-window timeout afterwards
clears only the `flash` flag: the mode stays Timer and `timerSet` is
kept (the code has no Clock mode and never resets `timerSet` here). -/
theorem c1_expiry_enters_flash_then_clears (s : TimerState)
    (hm : s.mode = TimerMode.timer) (hr : s.running = true)
    (hp : s.paused = false) (ht : s.time ≤ 1) :
    tick s = { s with running := false, paused := false, flash := true, time := 0 } ∧
    flashClear (tick s) =
      { s with running := false, paused := false, flash := false, time := 0 } := by
  unfold tick timerTickBody flashClear
  simp [hm, hr, hp, ht]

/-- A running timer one second away from expiry, configured for 120
seconds. -/
def c1state : TimerState :=
  { mode := TimerMode.timer, displayFormat := DisplayFormat.hms,
    running := true, paused := false, time := 1, timerSet := 120,
    flash := false, startTime := none }

/-- C1 witness: the expiry tick and the flash-window clearing evaluated
on `c1state`. -/
theorem c1_witness :
    tick c1state =
      { c1state with running := false, paused := false, flash := true, time := 0 } ∧
    flashClear (tick c1state) =
      { c1state with running := false, paused := false, flash := false, time := 0 } :=
  c1_expiry_enters_flash_then_clears c1state rfl rfl rfl (by decide)

/-- C1 counterexample: after expiry and the flash window, `c1state`
still has `timerSet = 120` (not reset to 0) and its mode is still
Timer (there is no Clock mode), refuting the claimed simultaneous
`mode = Clock`, `targetDuration = 0` reset. -/
theorem c1_counterexample :
    (flashClear (tick c1state)).timerSet = 120 ∧
    (flashClear (tick c1state)).mode = TimerMode.timer ∧
    (flashClear (tick c1state)).flash = false := by decide

/-- C4: a successful `logSession()` stores the raw `time` value as the
entry's duration — no unit conversion happens, so it is seconds in HMS
format but centiseconds in MS format — together with the current format
rendering, and the engine returns to a stopped, zeroed stopwatch. -/
theorem c4_log_stores_raw_time (s : TimerState) (st : Nat) (entries : List LogEntry)
    (hm : s.mode = TimerMode.stopwatch) (hst : s.startTime = some st)
    (ht : 0 < s.time) :
    handleLog s entries =
      ({ s with running := false, paused := false, time := 0, startTime := none },
       { startTime := st, duration := s.time, formattedDuration := formatTime s s.time }
         :: entries) := by
  unfold handleLog
  simp [hst, hm, ht]

/-- A stopwatch session in HMS format that has run for 65 seconds. -/
def c4hmsState : TimerState :=
  { mode := TimerMode.stopwatch, displayFormat := DisplayFormat.hms,
    running := true, paused := false, time := 65, timerSet := 0,
    flash := false, startTime := some 7 }

/-- C4 witness: logging the 65-second HMS session produces an entry with
duration 65 and formatted duration "00:01:05", and zeroes the engine. -/
theorem c4_witness :
    handleLog c4hmsState [] =
      ({ c4hmsState with running := false, paused := false, time := 0, startTime := none },
       [{ startTime := 7, duration := 65, formattedDuration := "00:01:05" }]) := by
  have h := c4_log_stores_raw_time c4hmsState 7 [] rfl rfl (by decide)
  exact h.trans (by decide)

/-- The same 65-second session viewed in MS format: the stored time is
6500 centiseconds. -/
def c4msState : TimerState :=
  { mode := TimerMode.stopwatch, displayFormat := DisplayFormat.ms,
    running := true, paused := false, time := 6500, timerSet := 0,
    flash := false, startTime := some 7 }

/-- C4 counterexample: logging the 65-second session in MS format stores
duration 6500 (raw centiseconds), not the 65 seconds the claim requires
("converted to seconds regardless of the active display format"). -/
theorem c4_counterexample :
    (handleLog c4msState []).2 =
      [{ startTime := 7, duration := 6500, formattedDuration := "01:05.00" }] ∧
    specElapsedSeconds c4msState = 65 := by decide

/-- C6: in timer mode, `startOrToggle()` from the stopped state starts
the engine even when `timerSet = 0` — it is not a no-op — and since the
mirrored display `time` is 0, the very next tick immediately expires
into the flashing state. -/
theorem c6_start_with_zero_target (now : Nat) (s : TimerState)
    (hm : s.mode = TimerMode.timer) (hr : s.running = false)
    (hp : s.paused = false) (ht : s.time = 0) :
    (handleStartStop now s).running = true ∧
    (handleStartStop now s).paused = false ∧
    (tick (handleStartStop now s)).flash = true ∧
    (tick (handleStartStop now s)).running = false ∧
    (tick (handleStartStop now s)).time = 0 := by
  unfold handleStartStop tick timerTickBody
  simp [hm, hr, hp, ht]

/-- A stopped timer with `timerSet = 0` (and hence mirrored
`time = 0`). -/
def c6state : TimerState :=
  { mode := TimerMode.timer, displayFormat := DisplayFormat.hms,
    running := false, paused := false, time := 0, timerSet := 0,
    flash := false, startTime := none }

/-- C6 witness: starting `c6state` runs and the next tick flashes. -/
theorem c6_witness :
    (handleStartStop 0 c6state).running = true ∧
    (handleStartStop 0 c6state).paused = false ∧
    (tick (handleStartStop 0 c6state)).flash = true ∧
    (tick (handleStartStop 0 c6state)).running = false ∧
    (tick (handleStartStop 0 c6state)).time = 0 :=
  c6_start_with_zero_target 0 c6state rfl rfl rfl rfl

/-- C6 counterexample: `startOrToggle()` on the stopped zero-target
timer `c6state` changes the state (it starts running), refuting the
claimed no-op. -/
theorem c6_counterexample :
    handleStartStop 0 c6state ≠ c6state ∧
      (handleStartStop 0 c6state).running = true := by decide

/-- C7: in timer mode, `incrementField(unit)` for unit 3600, 60 or 1 is
ignored while running, ignored when the new target would exceed
99:59:59 (`TIMER_MAX`), and otherwise adds `unit` to `timerSet`. -/
theorem c7_increment_guarded (s : TimerState) (u : Nat)
    (_hu : u = 3600 ∨ u = 60 ∨ u = 1) (hm : s.mode = TimerMode.timer) :
    (s.running = true → incrementField u s = s) ∧
    (s.running = false →
      (TIMER_MAX < s.timerSet + u → incrementField u s = s) ∧
      (s.timerSet + u ≤ TIMER_MAX →
        incrementField u s = { s with timerSet := s.timerSet + u })) := by
  unfold incrementField getMaxTime
  refine ⟨fun hr => ?_, fun hr => ⟨fun hgt => ?_, fun hle => ?_⟩⟩ <;>
    simp [hm, hr] <;> omega

/-- A paused timer with a 30-second target. -/
def c7state : TimerState :=
  { mode := TimerMode.timer, displayFormat := DisplayFormat.hms,
    running := false, paused := true, time := 30, timerSet := 30,
    flash := false, startTime := none }

/-- C7 witness: adding a minute to the stopped 30-second target yields a
90-second target. -/
theorem c7_witness : incrementField 60 c7state = { c7state with timerSet := 90 } := by
  have h :=
    ((c7_increment_guarded c7state 60 (Or.inr (Or.inl rfl)) rfl).2 rfl).2 (by decide)
  exact h.trans (by decide)

/-- C8: `logSession()` with `time = 0` or outside stopwatch mode appends
no entry and leaves the state untouched. -/
theorem c8_log_noop (s : TimerState) (entries : List LogEntry)
    (h : s.time = 0 ∨ s.mode ≠ TimerMode.stopwatch) :
    handleLog s entries = (s, entries) := by
  unfold handleLog
  rcases hst : s.startTime with _ | st
  · rfl
  · rcases h with h | h <;> simp [h]

/-- C8 witness: logging from the initial state (stopwatch, `time = 0`)
is a silent no-op. -/
theorem c8_witness : handleLog initialState [] = (initialState, []) :=
  c8_log_noop initialState [] (Or.inl rfl)

/-- C9: over any number of ticks, in stopwatch mode `time` is
monotonically non-decreasing and stays within the format-specific
maximum whenever it starts within it; in timer mode ticks never
increase `time` (the stored value counts DOWN toward 0 there). -/
theorem c9_tick_monotonicity (s : TimerState) (n : Nat) :
    (s.mode = TimerMode.stopwatch →
      s.time ≤ (tickN n s).time ∧
      (s.time ≤ getMaxTime s → (tickN n s).time ≤ getMaxTime s)) ∧
    (s.mode = TimerMode.timer → (tickN n s).time ≤ s.time) := by
  induction n generalizing s with
  | zero => exact ⟨fun _ => ⟨le_rfl, fun h => h⟩, fun _ => le_rfl⟩
  | succ n ih =>
    have hmode : (tick s).mode = s.mode := (tick_preserves_config s).1
    have hmax : getMaxTime (tick s) = getMaxTime s := getMaxTime_tick s
    refine ⟨fun hsw => ?_, fun htm => ?_⟩
    · have h1 := (ih (tick s)).1 (hmode.trans hsw)
      refine ⟨le_trans (tick_sw_mono s hsw) h1.1, fun hle => ?_⟩
      have := h1.2 (hmax ▸ tick_sw_le_max s hsw hle)
      exact hmax ▸ this
    · have h1 := (ih (tick s)).2 (hmode.trans htm)
      exact le_trans h1 (tick_tm_anti s htm)

/-- A running stopwatch in MS format with 10 centiseconds elapsed. -/
def c9swState : TimerState :=
  { mode := TimerMode.stopwatch, displayFormat := DisplayFormat.ms,
    running := true, paused := false, time := 10, timerSet := 0,
    flash := false, startTime := some 1 }

/-- C9 witness: three ticks of the running MS stopwatch never decrease
`time` and respect the 59:59.99 bound. -/
theorem c9_witness :
    c9swState.time ≤ (tickN 3 c9swState).time ∧
      (tickN 3 c9swState).time ≤ getMaxTime c9swState := by
  have h := (c9_tick_monotonicity c9swState 3).1 rfl
  exact ⟨h.1, h.2 (by decide)⟩

/-- A running timer with 5 seconds remaining. -/
def c9tmState : TimerState :=
  { mode := TimerMode.timer, displayFormat := DisplayFormat.hms,
    running := true, paused := false, time := 5, timerSet := 5,
    flash := false, startTime := none }

/-- C9 counterexample: a tick executed while the timer is running
strictly DECREASES the stored value (5 becomes 4), refuting the claimed
monotone non-decrease of the elapsed value in Timer mode. -/
theorem c9_counterexample :
    c9tmState.running = true ∧ (tick c9tmState).time < c9tmState.time := by decide

/-- C10: in stopwatch mode, a double format toggle starting from HMS
returns `time` exactly (`time * 100 / 100 = time`), while a double
toggle starting from MS truncates `time` down to a whole-second
multiple (`time / 100 * 100`). -/
theorem c10_double_toggle (s : TimerState) (hm : s.mode = TimerMode.stopwatch) :
    (s.displayFormat = DisplayFormat.hms →
      (handleFormatToggle (handleFormatToggle s)).time = s.time ∧
      (handleFormatToggle (handleFormatToggle s)).displayFormat = DisplayFormat.hms) ∧
    (s.displayFormat = DisplayFormat.ms →
      (handleFormatToggle (handleFormatToggle s)).time = s.time / 100 * 100 ∧
      (handleFormatToggle (handleFormatToggle s)).displayFormat = DisplayFormat.ms) := by
  unfold handleFormatToggle
  refine ⟨fun hd => ?_, fun hd => ?_⟩ <;> simp [hm, hd]

/-- A stopped MS stopwatch holding 123 centiseconds. -/
def c10state : TimerState :=
  { mode := TimerMode.stopwatch, displayFormat := DisplayFormat.ms,
    running := false, paused := false, time := 123, timerSet := 0,
    flash := false, startTime := none }

/-- C10 witness: double-toggling the 123-centisecond MS stopwatch
truncates to 100 centiseconds and restores the MS format. -/
theorem c10_witness :
    (handleFormatToggle (handleFormatToggle c10state)).time = 100 ∧
    (handleFormatToggle (handleFormatToggle c10state)).displayFormat = DisplayFormat.ms := by
  have h := (c10_double_toggle c10state rfl).2 rfl
  exact ⟨h.1.trans (by decide), h.2⟩
